import Mathlib

/-!
Verification of the LDAP authentication provider
(`pkg/auth/providers/ldap/ldap_client.go`).

The Go source is shallowly embedded: pure query construction becomes Lean
string functions, the directory connection becomes a record of oracle
functions (`Conn`), Go's `(value, error)` returns become `Except` /
`Option` results, and the search requests issued by a flow are collected
explicitly so that "no search was issued" is statable.

Helpers that live in other packages of the repository
(`pkg/auth/providers/common/ldap`) or in the external `go-ldap` library are
modelled where needed; each such definition carries a doc comment saying
what it models and where the behaviour comes from.
-/

/-- Error values crossing the embedded API, mirroring the three shapes of Go
error the source distinguishes: `httperror` API errors carrying a code,
typed `*ldapv3.Error` values carrying an LDAP result code, and plain Go
errors. -/
inductive ApiCode where
  | missingRequired
  | invalidOption
  | unauthorized
  | serverError
  | permissionDenied
  | notFound
  deriving DecidableEq, Repr

inductive Err where
  | api (code : ApiCode) (msg : String)
  | ldap (code : Nat) (msg : String)
  | go (msg : String)
  deriving DecidableEq, Repr

/-- LDAP result code 32 (`LDAPResultNoSuchObject`), compared against in
`searchLdap` (ldap_client.go:474) and `getPrincipal` (ldap_client.go:339). -/
def LDAPResultNoSuchObject : Nat := 32

/-- LDAP result code 49 (`LDAPResultInvalidCredentials`), compared against in
`loginUser` (ldap_client.go:71) and `getPrincipal` (ldap_client.go:305). -/
def LDAPResultInvalidCredentials : Nat := 49

/-- Principal record, the fields of `v3.Principal` the source reads or
writes: `ObjectMeta.Name` (the id), `DisplayName`, `LoginName`,
`PrincipalType`. -/
structure Principal where
  name : String
  displayName : String
  loginName : String
  principalType : String
  deriving DecidableEq, Repr

/-- Attribute of a directory entry (`ldapv3.EntryAttribute`). -/
structure EntryAttribute where
  name : String
  values : List String
  deriving DecidableEq, Repr

/-- Directory entry (`ldapv3.Entry`): a distinguished name plus attributes. -/
structure Entry where
  dn : String
  attributes : List EntryAttribute
  deriving DecidableEq, Repr

/-- Model of go-ldap's `Entry.GetAttributeValues`: the values of the first
attribute whose name matches exactly, `[]` when absent. -/
def Entry.getAttributeValues (e : Entry) (name : String) : List String :=
  match e.attributes.find? (fun a => a.name == name) with
  | some a => a.values
  | none => []

/-- Search request (`ldapv3.SearchRequest`) as the source builds it: base DN,
subtree-vs-base-object scope, filter, attribute list. -/
structure SearchRequest where
  baseDN : String
  wholeSubtree : Bool
  filter : String
  attributes : List String
  deriving DecidableEq, Repr

/-- Modelled from the spec (§4.2, missing helper
`ldap.NewWholeSubtreeSearchRequest` of `pkg/auth/providers/common/ldap`):
builds a whole-subtree search request. -/
def NewWholeSubtreeSearchRequest (base fil : String) (attrs : List String) : SearchRequest :=
  { baseDN := base, wholeSubtree := true, filter := fil, attributes := attrs }

/-- Modelled from the spec (§4.2, missing helper
`ldap.NewBaseObjectSearchRequest` of `pkg/auth/providers/common/ldap`):
builds a base-object (single entry, no recursion) search request. -/
def NewBaseObjectSearchRequest (base fil : String) (attrs : List String) : SearchRequest :=
  { baseDN := base, wholeSubtree := false, filter := fil, attributes := attrs }

/-- Connection oracle (`ldapv3.Client`): `bind` returns `none` on success;
`search` models `Search` (result used only when the error is nil);
`searchWithPaging` models `SearchWithPaging`, which in Go hands back both the
(possibly partial) entry set and an error, and the source reads the entries
even when the error is non-nil (ldap_client.go:471-479). -/
structure Conn where
  bind : String → String → Option Err
  search : SearchRequest → Except Err (List Entry)
  searchWithPaging : SearchRequest → Nat → List Entry × Option Err

/-- Provider receiver state (`ldapProvider`) as read by the embedded
functions: the two scope tags, the provider name and the
`samlSearchProvider()` flag. -/
structure Provider where
  userScope : String
  groupScope : String
  providerName : String
  samlSearch : Bool
  deriving DecidableEq, Repr

/-- Configuration (`v3.LdapConfig`), restricted to the fields
`ldap_client.go` reads. -/
structure LdapConfig where
  UserObjectClass : String
  UserLoginAttribute : String
  UserLoginFilter : String
  UserSearchBase : String
  UserSearchAttribute : String
  UserSearchFilter : String
  UserMemberAttribute : String
  UserNameAttribute : String
  UserEnabledAttribute : String
  UserDisabledBitMask : Nat
  GroupObjectClass : String
  GroupDNAttribute : String
  GroupMemberUserAttribute : String
  GroupMemberMappingAttribute : String
  GroupSearchBase : String
  GroupSearchAttribute : String
  GroupSearchFilter : String
  GroupNameAttribute : String
  NestedGroupMembershipEnabled : Bool
  SearchUsingServiceAccount : Bool
  Enabled : Bool
  ServiceAccountDistinguishedName : String
  ServiceAccountPassword : String
  deriving DecidableEq, Repr

/-- Constant `ObjectClass` of `pkg/auth/providers/common/ldap`: the literal
attribute name interpolated into every filter the source builds. -/
def ObjectClass : String := "objectClass"

/-- Attribute list requested by the operational-attribute search
(ldap_client.go:18). -/
def operationalAttrList : List String := ["1.1", "+", "*"]

/-- Login credentials (`v3.BasicLogin`). -/
structure BasicLogin where
  username : String
  password : String
  deriving DecidableEq, Repr

/-! ### go-ldap filter escaping

`ldapv3.EscapeFilter` of the external go-ldap library, byte-for-byte: a byte
is escaped as `\xx` (lowercase hex) when it is `(`, `)`, `*`, `\`, NUL or
above `0x7f`; all other bytes pass through unchanged. -/

/-- Predicate `mustEscape` of go-ldap's `EscapeFilter`, on byte values. -/
def mustEscape (c : Nat) : Bool :=
  c > 0x7f || c == 40 || c == 41 || c == 92 || c == 42 || c == 0

/-- Lowercase hex digit table used by go-ldap's `EscapeFilter`. -/
def hexChar (n : Nat) : Char :=
  "0123456789abcdef".data.getD n '0'

/-- Byte-level body of go-ldap's `EscapeFilter`. -/
def escapeBytes : List UInt8 → List Char
  | [] => []
  | b :: bs =>
    let c := b.toNat
    if mustEscape c then
      '\\' :: hexChar (c / 16) :: hexChar (c % 16) :: escapeBytes bs
    else
      Char.ofNat c :: escapeBytes bs

/-- UTF-8 bytes of a string, written with `String.utf8EncodeChar` so the
encoding evaluates inside the kernel. -/
def strBytes (s : String) : List UInt8 :=
  (s.data.map String.utf8EncodeChar).flatten

/-- Model of `ldapv3.EscapeFilter` (external go-ldap library): escape the
UTF-8 bytes of the value before interpolation into a filter. -/
def escapeFilter (s : String) : String :=
  String.mk (escapeBytes (strBytes s))

/-- Modelled from the spec (§4.1, missing helper `ldap.SanitizeAttr` of
`pkg/auth/providers/common/ldap`): attribute names drawn from configuration
are restricted to the attribute-name grammar (alphanumerics, hyphen, dot,
semicolon); every other character is dropped. -/
def SanitizeAttr (s : String) : String :=
  String.mk (s.data.filter fun c => c.isAlphanum || c == '-' || c == '.' || c == ';')

/-- Modelled from the spec (§4.4 step 2, missing helper
`ldap.GetUserExternalID` of `pkg/auth/providers/common/ldap`): a username
already carrying a `domain\user` form is returned unchanged, otherwise an
optional login domain gets attached; with an empty domain the username is
returned as is. -/
def GetUserExternalID (username loginDomain : String) : String :=
  if username.contains '\\' then username
  else if loginDomain != "" then loginDomain ++ "\\" ++ username
  else username

/-- Modelled from the spec (§4.3, missing helper `ldap.IsType` of
`pkg/auth/providers/common/ldap`): an entry "is" of an object class when its
`objectClass` attribute lists that class. -/
def IsType (attrs : List EntryAttribute) (objectClass : String) : Bool :=
  attrs.any fun a => a.name == ObjectClass && a.values.any (fun v => v == objectClass)

/-- First value of the named attribute in an attribute list, `none` when the
attribute is absent or empty. -/
def firstAttrValue (attrs : List EntryAttribute) (name : String) : Option String :=
  match attrs.find? (fun a => a.name == name) with
  | some a => a.values.head?
  | none => none

/-- Modelled from the spec (§4.3 and §3, missing helper
`ldap.AttributesToPrincipal` of `pkg/auth/providers/common/ldap`): an entry
whose object class matches the user class becomes a user principal, one
matching the group class becomes a group principal, anything else is an
error; the id is `scope://externalID`, and display/login names fall back to
the external id when the configured attribute is absent. -/
def AttributesToPrincipal (attrs : List EntryAttribute) (externalID scope _providerName
    userObjectClass userNameAttribute userLoginAttribute
    groupObjectClass groupNameAttribute : String) : Except Err Principal :=
  if IsType attrs userObjectClass then
    let accountName := (firstAttrValue attrs userNameAttribute).getD externalID
    let login := (firstAttrValue attrs userLoginAttribute).getD accountName
    .ok { name := scope ++ "://" ++ externalID, displayName := accountName,
          loginName := login, principalType := "user" }
  else if IsType attrs groupObjectClass then
    let accountName := (firstAttrValue attrs groupNameAttribute).getD externalID
    .ok { name := scope ++ "://" ++ externalID, displayName := accountName,
          loginName := accountName, principalType := "group" }
  else
    .error (.go ("Failed to get attributes for " ++ scope))

/-- Modelled from the spec (§4.5 step C, missing helper
`ldap.FindNonDuplicateBetweenGroupPrincipals` of
`pkg/auth/providers/common/ldap`): append to `acc` those newly found
principals whose id does not already occur in the accumulated set
`existing`; the pairwise pass checks only against `existing`, not against
`acc` or within the new list. -/
def FindNonDuplicateBetweenGroupPrincipals :
    List Principal → List Principal → List Principal → List Principal
  | [], _, acc => acc
  | gp :: rest, existing, acc =>
    if existing.any (fun e => e.name == gp.name) then
      FindNonDuplicateBetweenGroupPrincipals rest existing acc
    else
      FindNonDuplicateBetweenGroupPrincipals rest existing (acc ++ [gp])

/-- Modelled from the spec (§4.3/§4.4, missing helper `ldap.HasPermission`
behind `permissionCheck`, ldap_client.go:516-521): entries that are not of
the user object class pass; with no configured enabled-attribute the check
passes; otherwise the disabled bitmask is tested against the attribute's
numeric value. -/
def HasPermission (attrs : List EntryAttribute) (userObjectClass userEnabledAttribute : String)
    (userDisabledBitMask : Nat) : Bool :=
  if !(IsType attrs userObjectClass) then true
  else if userEnabledAttribute == "" then true
  else
    match firstAttrValue attrs userEnabledAttribute with
    | none => false
    | some v =>
      match v.toNat? with
      | none => false
      | some n => (n.land userDisabledBitMask) != userDisabledBitMask

/-- Translation of `permissionCheck` (ldap_client.go:516-521). -/
def permissionCheck (attributes : List EntryAttribute) (config : LdapConfig) : Bool :=
  HasPermission attributes config.UserObjectClass config.UserEnabledAttribute
    config.UserDisabledBitMask

/-- Modelled from the spec (§4.4 step 2, missing helper
`ldap.AuthenticateServiceAccountUser` of `pkg/auth/providers/common/ldap`):
bind the connection as the configured service account. -/
def AuthenticateServiceAccountUser (password dn loginDomain : String) (conn : Conn) :
    Option Err :=
  conn.bind (GetUserExternalID dn loginDomain) password

/-- Modelled from the spec (§6, missing config helper
`GetUserSearchAttributes`): the derived attribute list for user searches. -/
def LdapConfig.getUserSearchAttributes (config : LdapConfig) (objectClass : String) :
    List String :=
  [config.UserMemberAttribute, objectClass, config.UserLoginAttribute,
   config.UserNameAttribute, config.UserEnabledAttribute]

/-- Modelled from the spec (§6, missing config helper
`GetGroupSearchAttributes`): the derived attribute list for group
searches. -/
def LdapConfig.getGroupSearchAttributes (config : LdapConfig) (objectClass : String) :
    List String :=
  [config.GroupMemberUserAttribute, config.GroupMemberMappingAttribute,
   objectClass, config.GroupNameAttribute, config.GroupSearchAttribute]

/-- Model of Go's `strings.Split` for a one-character separator, written on
character lists so it evaluates inside the kernel. -/
def splitChar (sep : Char) : List Char → List (List Char)
  | [] => [[]]
  | c :: cs =>
    let r := splitChar sep cs
    if c == sep then [] :: r
    else
      match r with
      | [] => [[c]]
      | h :: t => (c :: h) :: t

/-- Model of Go's case folding `strings.EqualFold`, restricted to the ASCII
folding the compared scope tags use. -/
def equalFold (a b : String) : Bool :=
  a.data.map Char.toLower == b.data.map Char.toLower

/-- Piece `strings.Split(scope, "_")[1]` used by `searchLdap`
(ldap_client.go:445) and `getPrincipal` (ldap_client.go:285). -/
def entityTypeOf (scope : String) : String :=
  ((splitChar '_' scope.data).map String.mk).getD 1 ""

/-- Search request built by `searchLdap` (ldap_client.go:445-462): a
whole-subtree request under the user search base for user scopes, or under
the group search base (falling back to the user search base) for group
scopes. -/
def searchLdapRequest (config : LdapConfig) (query scope : String) : SearchRequest :=
  if equalFold "user" (entityTypeOf scope) then
    NewWholeSubtreeSearchRequest config.UserSearchBase query
      (config.getUserSearchAttributes ObjectClass)
  else
    let searchDomain :=
      if config.GroupSearchBase != "" then config.GroupSearchBase else config.UserSearchBase
    NewWholeSubtreeSearchRequest searchDomain query
      (config.getGroupSearchAttributes ObjectClass)

/-- Translation of `searchLdap` (ldap_client.go:441-514): build the scoped
subtree request, re-bind the service account, run the paged search (page
size 1000), treat a typed LDAP error with a result code other than
no-such-object as a failure — any other error value is not surfaced — and
map the returned entries to principals. -/
def searchLdap (pr : Provider) (conn : Conn) (query scope : String) (config : LdapConfig) :
    Except Err (List Principal) :=
  let entityType := entityTypeOf scope
  let search := searchLdapRequest config query scope
  match conn.bind (GetUserExternalID config.ServiceAccountDistinguishedName "")
      config.ServiceAccountPassword with
  | some _ => .error (.go "ldap: error binding service account")
  | none =>
    let (entries, errOpt) := conn.searchWithPaging search 1000
    let surfaced : Bool :=
      match errOpt with
      | some (.ldap code _) => code != LDAPResultNoSuchObject
      | _ => false
    if surfaced then
      .error (.go ("ldap: error searching for query " ++ query))
    else
      entries.foldl (fun acc entry =>
        match acc with
        | .error e => .error e
        | .ok principals =>
          let externalID :=
            if pr.samlSearch then
              if equalFold "user" entityType then
                match (Entry.getAttributeValues entry config.UserLoginAttribute).head? with
                | some v => v
                | none => entry.dn
              else
                match (Entry.getAttributeValues entry config.GroupDNAttribute).head? with
                | some v => v
                | none => entry.dn
            else entry.dn
          match AttributesToPrincipal entry.attributes externalID scope pr.providerName
              config.UserObjectClass config.UserNameAttribute config.UserLoginAttribute
              config.GroupObjectClass config.GroupNameAttribute with
          | .error e => .error e
          | .ok principal => .ok (principals ++ [principal])) (.ok [])

/-- Per-attribute clause of the user principal-search query
(ldap_client.go:399-406): prefix match `attr=name*`, exact match for the
integer attribute `uidNumber`. -/
def searchUserAttrClause (name attr : String) : String :=
  if attr == "uidNumber" then
    "(" ++ escapeFilter attr ++ "=" ++ escapeFilter name ++ ")"
  else
    "(" ++ escapeFilter attr ++ "=" ++ escapeFilter name ++ "*)"

/-- Query string built by `searchUser` (ldap_client.go:396-409): the user
object-class clause conjoined with an OR over the pipe-delimited configured
search attributes, one clause per attribute, followed by the configured
user search filter as a final clause. -/
def searchUserQuery (config : LdapConfig) (name : String) : String :=
  let srchAttributes := config.UserSearchAttribute.splitOn "|"
  let base := "(&(" ++ ObjectClass ++ "=" ++ SanitizeAttr config.UserObjectClass ++ ")"
  let srchAttrs := srchAttributes.foldl
    (fun s attr => s ++ searchUserAttrClause name attr) "(|"
  base ++ srchAttrs ++ ")" ++ config.UserSearchFilter ++ ")"

/-- Query string built by `searchGroup` (ldap_client.go:423-435): the group
object-class clause conjoined with a single clause on the configured group
search attribute, a substring match `attr=*name*` in general and an exact
match for `gidNumber`; the configured group search filter is appended. -/
def searchGroupQuery (config : LdapConfig) (name : String) : String :=
  let searchClause :=
    if config.GroupSearchAttribute == "gidNumber" then
      SanitizeAttr config.GroupSearchAttribute ++ "=" ++ escapeFilter name
    else
      SanitizeAttr config.GroupSearchAttribute ++ "=*" ++ escapeFilter name ++ "*"
  "(&(" ++ ObjectClass ++ "=" ++ SanitizeAttr config.GroupObjectClass ++ ")(" ++
    searchClause ++ ")" ++ config.GroupSearchFilter ++ ")"

/-- Translation of `searchUser` (ldap_client.go:387-412): validate the
configured search filter override, then search with the built query. -/
def searchUser (pr : Provider) (conn : Conn) (compileFilterOk : String → Bool)
    (name : String) (config : LdapConfig) : Except Err (List Principal) :=
  if config.UserSearchFilter != "" && !(compileFilterOk config.UserSearchFilter) then
    .error (.go "invalid user search filter")
  else
    searchLdap pr conn (searchUserQuery config name) pr.userScope config

/-- Translation of `searchGroup` (ldap_client.go:414-439): validate the
configured search filter override, then search with the built query. -/
def searchGroup (pr : Provider) (conn : Conn) (compileFilterOk : String → Bool)
    (name : String) (config : LdapConfig) : Except Err (List Principal) :=
  if config.GroupSearchFilter != "" && !(compileFilterOk config.GroupSearchFilter) then
    .error (.go "invalid group search filter")
  else
    searchLdap pr conn (searchGroupQuery config name) pr.groupScope config

/-! ### Group membership resolution (`getPrincipalsFromSearchResult`) -/

/-- Batching of the forward-membership DN list
(`for i := 0; i < len; i += 50`, ldap_client.go:158-159): consecutive
slices of at most 50 values. -/
def chunk50 (l : List String) : List (List String) :=
  if h : l = [] then []
  else l.take 50 :: chunk50 (l.drop 50)
termination_by l.length
decreasing_by
  cases l with
  | nil => exact absurd rfl h
  | cons a as => simp only [List.length_drop, List.length_cons]; omega

/-- Per-batch filter built at ldap_client.go:160-166:
`(&(objectClass=<groupClass>)(|(<groupDNAttr>=<escaped dn>)...))`. -/
def batchQuery (config : LdapConfig) (batch : List String) : String :=
  let fil := "(" ++ ObjectClass ++ "=" ++ SanitizeAttr config.GroupObjectClass ++ ")"
  let query := batch.foldl (fun q gdn =>
    q ++ ("(" ++ config.GroupDNAttribute ++ "=" ++ escapeFilter gdn ++ ")")) "(|"
  "(&" ++ fil ++ (query ++ ")") ++ ")"

/-- Reverse-membership filter built at ldap_client.go:187-193 and again at
ldap_client.go:210-216:
`(&(<mappingAttr>=<escaped value>)(objectClass=<groupClass>))`. -/
def memberMappingQuery (config : LdapConfig) (value : String) : String :=
  "(&(" ++ SanitizeAttr config.GroupMemberMappingAttribute ++ "=" ++ escapeFilter value ++
    ")(" ++ ObjectClass ++ "=" ++ SanitizeAttr config.GroupObjectClass ++ "))"

/-- Step B loop (ldap_client.go:158-174): issue one `searchLdap` per batch,
appending results; a failing batch returns the groups accumulated so far
together with the error. -/
def stepBLoop (pr : Provider) (conn : Conn) (config : LdapConfig) :
    List (List String) → List Principal → List Principal × Option Err
  | [], acc => (acc, none)
  | b :: bs, acc =>
    match searchLdap pr conn (batchQuery config b) pr.groupScope config with
    | .ok gps => stepBLoop pr conn config bs (acc ++ gps)
    | .error e => (acc, some e)

/-- Steps A and B of the resolver: batch the forward-membership values and
resolve each batch by query (ldap_client.go:158-174). -/
def stepB (pr : Provider) (conn : Conn) (config : LdapConfig) (dns : List String) :
    List Principal × Option Err :=
  stepBLoop pr conn config (chunk50 dns) []

/-! ### Nested traversal (Step E)

`ldap.GatherParentGroups` lives in `pkg/auth/providers/common/ldap`, outside
the provided source. It is modelled from the spec (§4.5 step E and §9):
an explicit worklist over the membership graph with a visited set keyed by
group principal id; visiting a group queries the directory for the groups
whose membership-mapping attribute equals the visited group's identifying
value, newly discovered parents are recorded once and enqueued, and an
already-visited group is never re-queried. The finite set of group entries
the directory can ever return and the per-group search-failure behaviour
are made explicit as `NestedDirectory`. -/

structure NestedDirectory where
  groups : List Entry
  searchFails : String → Bool

/-- Parameters `ldap.ConfigAttributes` plus scope/provider feeding the
per-group queries and entry-to-principal mapping of the traversal
(ldap_client.go:234-246). -/
structure GatherCtx where
  nd : NestedDirectory
  mappingAttr : String
  groupObjectClass : String
  groupScope : String
  providerName : String
  userObjectClass : String
  userNameAttribute : String
  userLoginAttribute : String
  groupNameAttribute : String

/-- Drops everything up to and including the first `://` separator, `[]`
when there is none. -/
def dropThroughSep : List Char → List Char
  | [] => []
  | ':' :: '/' :: '/' :: rest => rest
  | _ :: rest => dropThroughSep rest

/-- Modelled from the spec: a group principal's identifying value is its
external id, the part of `scope://externalID` after the separator. -/
def externalIdOf (name : String) : String :=
  String.mk (dropThroughSep name.data)

/-- Modelled from the spec: the parent groups of a visited group are the
directory's group-class entries whose membership-mapping attribute contains
the group's identifying value, mapped to principals. -/
def parentsOf (ctx : GatherCtx) (g : Principal) : List Principal :=
  (ctx.nd.groups.filter fun e =>
    IsType e.attributes ctx.groupObjectClass &&
      (Entry.getAttributeValues e ctx.mappingAttr).contains (externalIdOf g.name)).filterMap
    fun e =>
      (AttributesToPrincipal e.attributes e.dn ctx.groupScope ctx.providerName
        ctx.userObjectClass ctx.userNameAttribute ctx.userLoginAttribute
        ctx.groupObjectClass ctx.groupNameAttribute).toOption

/-- Names the nested traversal can ever discover: every principal built from
a directory entry is named `groupScope://dn`. -/
def ndNames (ctx : GatherCtx) : List String :=
  ctx.nd.groups.map fun e => ctx.groupScope ++ "://" ++ e.dn

/-- Termination measure of the worklist: the not-yet-visited names among the
current worklist and the directory. -/
def gatherMeasure (ctx : GatherCtx) (w : List (Principal × Bool)) (visited : List String) :
    Nat :=
  ((w.map (fun x => x.1.name) ++ ndNames ctx).toFinset.filter fun s => s ∉ visited).card

theorem except_toOption_eq_some {α β : Type} {x : Except α β} {b : β}
    (h : x.toOption = some b) : x = .ok b := by
  cases x with
  | error e => simp [Except.toOption] at h
  | ok a => simp [Except.toOption] at h; rw [h]

theorem attributesToPrincipal_name_eq (attrs : List EntryAttribute)
    (externalID scope pn uoc una ula goc gna : String) (p : Principal)
    (h : AttributesToPrincipal attrs externalID scope pn uoc una ula goc gna = .ok p) :
    p.name = scope ++ "://" ++ externalID := by
  unfold AttributesToPrincipal at h
  split_ifs at h
  · injection h with h'
    rw [← h']
  · injection h with h'
    rw [← h']

theorem parentsOf_name_mem_ndNames (ctx : GatherCtx) (g p : Principal)
    (hp : p ∈ parentsOf ctx g) : p.name ∈ ndNames ctx := by
  simp only [parentsOf, List.mem_filterMap, List.mem_filter] at hp
  obtain ⟨e, ⟨he, -⟩, hmap⟩ := hp
  simp only [ndNames, List.mem_map]
  exact ⟨e, he, (attributesToPrincipal_name_eq _ _ _ _ _ _ _ _ _ _
    (except_toOption_eq_some hmap)).symm⟩

theorem gatherMeasure_skip (ctx : GatherCtx) (g : Principal) (b : Bool)
    (rest : List (Principal × Bool)) (visited : List String)
    (hv : g.name ∈ visited) :
    gatherMeasure ctx rest visited = gatherMeasure ctx ((g, b) :: rest) visited := by
  unfold gatherMeasure
  congr 1
  ext s
  simp only [Finset.mem_filter, List.mem_toFinset, List.mem_append, List.map_cons,
    List.mem_cons]
  constructor
  · rintro ⟨h1, h2⟩
    exact ⟨by tauto, h2⟩
  · rintro ⟨h1, h2⟩
    refine ⟨?_, h2⟩
    rcases h1 with (rfl | h) | h
    · exact absurd hv h2
    · exact Or.inl h
    · exact Or.inr h

theorem gatherMeasure_visit (ctx : GatherCtx) (g : Principal) (b : Bool)
    (rest : List (Principal × Bool)) (visited : List String)
    (hv : g.name ∉ visited) :
    gatherMeasure ctx (rest ++ (parentsOf ctx g).map (fun q => (q, true)))
      (g.name :: visited) < gatherMeasure ctx ((g, b) :: rest) visited := by
  unfold gatherMeasure
  apply Finset.card_lt_card
  rw [Finset.ssubset_def]
  constructor
  · intro s hs
    simp only [Finset.mem_filter, List.mem_toFinset, List.mem_append, List.map_append,
      List.map_cons, List.mem_cons, List.map_map] at hs ⊢
    obtain ⟨h1, h2⟩ := hs
    push_neg at h2
    refine ⟨?_, h2.2⟩
    rcases h1 with (h | h) | h
    · exact Or.inl (Or.inr h)
    · simp only [List.mem_map, Function.comp] at h
      obtain ⟨q, hq, rfl⟩ := h
      exact Or.inr (parentsOf_name_mem_ndNames ctx g q hq)
    · exact Or.inr h
  · intro hsub
    have hg : g.name ∈ (((g, b) :: rest).map (fun x => x.1.name) ++ ndNames ctx).toFinset.filter
        (fun s => s ∉ visited) := by
      simp [hv]
    have h3 := hsub hg
    simp only [Finset.mem_filter] at h3
    exact h3.2 (List.mem_cons_self _ _)

/-- Modelled from the spec (§4.5 step E and §9, missing helper
`ldap.GatherParentGroups` of `pkg/auth/providers/common/ldap`): worklist
traversal upward through the membership graph. Popping an unvisited group
marks it visited, queries its parents (an error from that per-group search
aborts the whole traversal), records the group in the accumulator when it
was itself a discovered parent (`isNested`), and enqueues its parents;
popping an already-visited group is a no-op, so no group is ever re-queried
and each is recorded at most once. Totality of this definition is the
termination property: the measure `gatherMeasure` strictly decreases on
every visit, also on cyclic membership graphs. -/
def gatherWorklist (ctx : GatherCtx) :
    List (Principal × Bool) → List String → List Principal → Except Err (List Principal)
  | [], _, acc => .ok acc
  | (g, isNested) :: rest, visited, acc =>
    if hv : g.name ∈ visited then
      gatherWorklist ctx rest visited acc
    else if ctx.nd.searchFails g.name then
      .error (.go "nested group search failed")
    else
      gatherWorklist ctx (rest ++ (parentsOf ctx g).map (fun q => (q, true)))
        (g.name :: visited) (if isNested then acc ++ [g] else acc)
termination_by w visited _ => (gatherMeasure ctx w visited, w.length)
decreasing_by
  · rw [gatherMeasure_skip ctx g isNested rest visited hv]
    exact Prod.Lex.right _ (Nat.lt_succ_self _)
  · exact Prod.Lex.left _ _ (gatherMeasure_visit ctx g isNested rest visited hv)

/-- Zero value `v3.Principal{}` returned on the error paths of the source. -/
def emptyPrincipal : Principal :=
  { name := "", displayName := "", loginName := "", principalType := "" }

/-- Traversal parameters assembled at ldap_client.go:234-246: the
`ldap.ConfigAttributes` record (provider name hard-wired to `OpenLdapName`)
plus the group scope, over the modelled nested directory. -/
def gatherCtxOf (pr : Provider) (nd : NestedDirectory) (config : LdapConfig) : GatherCtx :=
  { nd := nd
    mappingAttr := config.GroupMemberMappingAttribute
    groupObjectClass := config.GroupObjectClass
    groupScope := pr.groupScope
    providerName := "openldap"
    userObjectClass := config.UserObjectClass
    userNameAttribute := config.UserNameAttribute
    userLoginAttribute := config.UserLoginAttribute
    groupNameAttribute := config.GroupNameAttribute }

/-- Step E of the resolver (ldap_client.go:225-255): when nested resolution
is enabled and the scope is the reverse-attribute (`openldap_group`) style,
or when the Step-D fallback was used, traverse upward from every group found
so far; an error from the per-group traversal returns the groups
accumulated before Step E with a nil error (ldap_client.go:249-251), and on
success the newly found parents are merged by first-seen-wins
deduplication. -/
def stepE (pr : Provider) (nd : NestedDirectory) (config : LdapConfig)
    (user : Principal) (groupPrincipals : List Principal)
    (freeipaNonEntrydnApproach : Bool) : Principal × List Principal × Option Err :=
  if (config.NestedGroupMembershipEnabled && pr.groupScope == "openldap_group")
      || freeipaNonEntrydnApproach then
    match gatherWorklist (gatherCtxOf pr nd config)
        (groupPrincipals.map (fun g => (g, false))) [] [] with
    | .error _ => (user, groupPrincipals, none)
    | .ok nested =>
      (user, groupPrincipals ++
        FindNonDuplicateBetweenGroupPrincipals nested groupPrincipals [], none)
  else (user, groupPrincipals, none)

/-- Translation of `getPrincipalsFromSearchResult` (ldap_client.go:115-258).
The two search results are passed as their first entries (the only parts the
source reads; its callers guarantee both are non-empty). Steps: permission
check, forward-membership attribute with operational fallback, object-class
gate, user principal mapping, batched forward resolution (Step B),
reverse-membership cross-check (Step C), no-membership fallback by user DN
(Step D) and nested traversal (Step E). -/
def getPrincipalsFromSearchResult (pr : Provider) (conn : Conn) (nd : NestedDirectory)
    (entry opEntry : Entry) (config : LdapConfig) :
    Principal × List Principal × Option Err :=
  if !(permissionCheck entry.attributes config) then
    (emptyPrincipal, [], some (.go "permission denied"))
  else
    let userMemberAttribute :=
      let v := entry.getAttributeValues config.UserMemberAttribute
      if v.isEmpty then opEntry.getAttributeValues config.UserMemberAttribute else v
    if !(IsType entry.attributes config.UserObjectClass) then
      (emptyPrincipal, [], none)
    else
      match AttributesToPrincipal entry.attributes entry.dn pr.userScope pr.providerName
          config.UserObjectClass config.UserNameAttribute config.UserLoginAttribute
          config.GroupObjectClass config.GroupNameAttribute with
      | .error e => (emptyPrincipal, [], some e)
      | .ok user =>
        let userDN := entry.dn
        match stepB pr conn config userMemberAttribute with
        | (gps, some e) => (user, gps, some e)
        | (gps, none) =>
          let groupMemberUserAttribute :=
            let v := entry.getAttributeValues config.GroupMemberUserAttribute
            if v.isEmpty then
              match opEntry.attributes.find?
                  (fun a => a.name == config.GroupMemberUserAttribute) with
              | some a => a.values
              | none => []
            else v
          let afterC : List Principal × Option Err :=
            match groupMemberUserAttribute with
            | [] => (gps, none)
            | v :: _ =>
              match searchLdap pr conn (memberMappingQuery config v) pr.groupScope config with
              | .ok newGPs =>
                (gps ++ FindNonDuplicateBetweenGroupPrincipals newGPs gps [], none)
              | .error e => (gps, some e)
          match afterC with
          | (gps2, some e) => (user, gps2, some e)
          | (gps2, none) =>
            if gps2.isEmpty then
              match searchLdap pr conn (memberMappingQuery config userDN)
                  pr.groupScope config with
              | .error e => (user, [], some e)
              | .ok gps3 => stepE pr nd config user gps3 true
            else
              stepE pr nd config user gps2 false

/-- External collaborators of `loginUser` beyond the connection: go-ldap's
`CompileFilter` syntax validation (ldap_client.go:35), and the access-control
collaborator `p.userMGR.CheckAccess` (ldap_client.go:104) applied to the
resolved user principal name and group principals (access mode and allow
list are captured inside the oracle). -/
structure LoginDeps where
  compileFilterOk : String → Bool
  checkAccess : String → List Principal → Except Err Bool

/-- Login search filter built at ldap_client.go:40-47:
`(&(objectClass=<class>)(<loginAttr>=<escaped username>)<loginFilter>)`. -/
def loginUserFilter (config : LdapConfig) (username : String) : String :=
  "(&(" ++ ObjectClass ++ "=" ++ SanitizeAttr config.UserObjectClass ++ ")(" ++
    SanitizeAttr config.UserLoginAttribute ++ "=" ++ escapeFilter username ++ ")" ++
    config.UserLoginFilter ++ ")"

/-- Translation of `loginUser` (ldap_client.go:20-113). The second component
collects the search requests `loginUser` itself hands to `lConn.Search`, in
order, so that "no directory search was issued" is statable; binds are not
searches. Later group-resolution searches go through `searchLdap` inside
`getPrincipalsFromSearchResult` and happen only after both listed
searches. -/
def loginUser (pr : Provider) (conn : Conn) (nd : NestedDirectory) (deps : LoginDeps)
    (credentials : BasicLogin) (config : LdapConfig) :
    Except Err (Principal × List Principal) × List SearchRequest :=
  if credentials.password == "" then
    (.error (.api .missingRequired "password not provided"), [])
  else
    match AuthenticateServiceAccountUser config.ServiceAccountPassword
        config.ServiceAccountDistinguishedName "" conn with
    | some e => (.error e, [])
    | none =>
      if config.UserLoginFilter != "" && !(deps.compileFilterOk config.UserLoginFilter) then
        (.error (.api .invalidOption "invalid userLoginFilter"), [])
      else
        let searchRequest := NewWholeSubtreeSearchRequest config.UserSearchBase
          (loginUserFilter config credentials.username)
          (config.getUserSearchAttributes ObjectClass)
        match conn.search searchRequest with
        | .error _ => (.error (.api .unauthorized "Unauthorized"), [searchRequest])
        | .ok entries =>
          match entries with
          | [] => (.error (.api .unauthorized "Unauthorized"), [searchRequest])
          | _ :: _ :: _ => (.error (.api .unauthorized "Unauthorized"), [searchRequest])
          | [entry] =>
            let userDN := entry.dn
            match conn.bind userDN credentials.password with
            | some e =>
              let invalidCreds :=
                match e with
                | .ldap code _ => code == LDAPResultInvalidCredentials
                | _ => false
              if invalidCreds then
                (.error (.api .unauthorized "Unauthorized"), [searchRequest])
              else
                (.error (.api .serverError "server error while authenticating"),
                  [searchRequest])
            | none =>
              let rebindErr : Option Err :=
                if config.SearchUsingServiceAccount then
                  AuthenticateServiceAccountUser config.ServiceAccountPassword
                    config.ServiceAccountDistinguishedName "" conn
                else none
              match rebindErr with
              | some _ =>
                (.error (.api .unauthorized "authentication failed"), [searchRequest])
              | none =>
                let searchOpRequest := NewWholeSubtreeSearchRequest userDN
                  ("(" ++ ObjectClass ++ "=" ++ SanitizeAttr config.UserObjectClass ++ ")")
                  operationalAttrList
                match conn.search searchOpRequest with
                | .error _ =>
                  (.error (.api .unauthorized "authentication failed"),
                    [searchRequest, searchOpRequest])
                | .ok opEntries =>
                  match opEntries with
                  | [] =>
                    (.error (.api .unauthorized
                      ("Cannot locate user information for " ++ searchOpRequest.filter)),
                      [searchRequest, searchOpRequest])
                  | opEntry :: _ =>
                    match getPrincipalsFromSearchResult pr conn nd entry opEntry config with
                    | (_, _, some e) => (.error e, [searchRequest, searchOpRequest])
                    | (userPrincipal, groupPrincipals, none) =>
                      match deps.checkAccess userPrincipal.name groupPrincipals with
                      | .error e => (.error e, [searchRequest, searchOpRequest])
                      | .ok allowed =>
                        if !allowed then
                          (.error (.api .permissionDenied "Permission denied"),
                            [searchRequest, searchOpRequest])
                        else
                          (.ok (userPrincipal, groupPrincipals),
                            [searchRequest, searchOpRequest])

/-- Principal synthesized from the distinguished name alone at
ldap_client.go:305-319, when the service-account bind fails with
invalid credentials while the provider is enabled. -/
def principalFromDN (scope distinguishedName entityType : String) : Principal :=
  let kind :=
    if equalFold "user" entityType then "user"
    else if equalFold "group" entityType then "group"
    else ""
  { name := scope ++ "://" ++ distinguishedName, displayName := distinguishedName,
    loginName := distinguishedName, principalType := kind }

/-- Translation of `getPrincipal` (ldap_client.go:260-363). `connectResult`
models `ldap.Connect`; `parseDN` models go-ldap's `ParseDN`, returning the
flattened RDN attribute type/value pairs. The second component collects the
search requests handed to `lConn.Search`. -/
def getPrincipal (pr : Provider) (connectResult : Except Err Conn)
    (parseDN : String → Option (List (String × String)))
    (distinguishedName scope : String) (config : LdapConfig) :
    Except Err (Option Principal) × List SearchRequest :=
  if scope != pr.userScope && scope != pr.groupScope then
    (.error (.go "invalid scope"), [])
  else
    match parseDN distinguishedName with
    | none => (.error (.go "invalid DN"), [])
    | some rdnAttrs =>
      let attribs : List EntryAttribute :=
        rdnAttrs.map (fun p => { name := p.1, values := [p.2] })
      if !(IsType attribs scope) && !(permissionCheck attribs config) then
        (.ok none, [])
      else
        let entityType := entityTypeOf scope
        let fil :=
          if equalFold "user" entityType then
            "(" ++ ObjectClass ++ "=" ++ SanitizeAttr config.UserObjectClass ++ ")"
          else
            "(" ++ ObjectClass ++ "=" ++ SanitizeAttr config.GroupObjectClass ++ ")"
        match connectResult with
        | .error e => (.error e, [])
        | .ok conn =>
          match conn.bind (GetUserExternalID config.ServiceAccountDistinguishedName "")
              config.ServiceAccountPassword with
          | some e =>
            let invalidCreds :=
              match e with
              | .ldap code _ => code == LDAPResultInvalidCredentials
              | _ => false
            if invalidCreds && config.Enabled then
              (.ok (some (principalFromDN scope distinguishedName entityType)), [])
            else
              (.error (.go "Error in ldap bind"), [])
          | none =>
            let attrs :=
              if equalFold "user" entityType then
                config.getUserSearchAttributes ObjectClass
              else
                config.getGroupSearchAttributes ObjectClass
            let search := NewBaseObjectSearchRequest distinguishedName fil attrs
            match conn.search search with
            | .error e =>
              let isNoSuchObject :=
                match e with
                | .ldap code _ => code == 32
                | _ => false
              if isNoSuchObject then
                (.error (.api .notFound (distinguishedName ++ " not found")), [search])
              else
                (.error (.api .serverError "Internal server error"), [search])
            | .ok entries =>
              match entries with
              | [] => (.error (.go "no identities can be retrieved"), [search])
              | _ :: _ :: _ => (.error (.go "more than one result found"), [search])
              | [entry] =>
                if !(permissionCheck entry.attributes config) then
                  (.error (.go "permission denied"), [search])
                else
                  match AttributesToPrincipal entry.attributes distinguishedName scope
                      pr.providerName config.UserObjectClass config.UserNameAttribute
                      config.UserLoginAttribute config.GroupObjectClass
                      config.GroupNameAttribute with
                  | .error e => (.error e, [search])
                  | .ok principal => (.ok (some principal), [search])

/-! ### Escaping properties (claim C9) -/

/-- Lowercase hexadecimal digits, the only characters go-ldap's escaping
emits after a backslash. -/
def isHexDig (c : Char) : Bool := "0123456789abcdef".data.contains c

/-- Character list in which every backslash starts a two-hex-digit escape
sequence and the filter metacharacters `(`, `)`, `*` never occur raw: such
text is read by an LDAP filter parser as literal characters only, never as
wildcards or operators. -/
def wellEscaped : List Char → Bool
  | [] => true
  | c :: rest =>
    if c == '\\' then
      match rest with
      | a :: b :: rest2 => isHexDig a && isHexDig b && wellEscaped rest2
      | _ => false
    else
      !(c == '(' || c == ')' || c == '*') && wellEscaped rest

theorem hexChar_isHexDig : ∀ n < 16, isHexDig (hexChar n) = true := by decide

set_option maxRecDepth 4096 in
theorem ofNat_unescaped_ok : ∀ c < 256, mustEscape c = false →
    ((Char.ofNat c == '\\') = false ∧ (Char.ofNat c == '(') = false ∧
     (Char.ofNat c == ')') = false ∧ (Char.ofNat c == '*') = false) := by decide

theorem wellEscaped_cons_not_backslash (c : Char) (rest : List Char)
    (hc : (c == '\\') = false) :
    wellEscaped (c :: rest) = (!(c == '(' || c == ')' || c == '*') && wellEscaped rest) := by
  cases rest with
  | nil => simp [wellEscaped, hc]
  | cons a rest2 => cases rest2 <;> simp [wellEscaped, hc]

theorem wellEscaped_escapeBytes (bs : List UInt8) : wellEscaped (escapeBytes bs) = true := by
  induction bs with
  | nil => rfl
  | cons b bs ih =>
    have hlt : b.toNat < 256 := b.toNat_lt
    cases hme : mustEscape b.toNat with
    | true =>
      have h1 := hexChar_isHexDig (b.toNat / 16) (by omega)
      have h2 := hexChar_isHexDig (b.toNat % 16) (Nat.mod_lt _ (by norm_num))
      simp [escapeBytes, hme, wellEscaped, h1, h2, ih]
    | false =>
      have h3 := ofNat_unescaped_ok b.toNat hlt hme
      simp only [escapeBytes, hme, Bool.false_eq_true, if_false]
      rw [wellEscaped_cons_not_backslash _ _ h3.1]
      simp [h3.2.1, h3.2.2.1, h3.2.2.2, ih]

theorem wellEscaped_escapeFilter (s : String) : wellEscaped (escapeFilter s).data = true :=
  wellEscaped_escapeBytes (strBytes s)

/-- C9: for every username, the login search filter interpolates the
username only through `escapeFilter`, between fixed configuration-derived
pieces, and the escaped form is well escaped: the metacharacters `*`, `(`,
`)` and `\` of the raw username can only appear as two-hex-digit escape
sequences, never as raw wildcard or operator characters. -/
theorem login_filter_escapes_username (config : LdapConfig) (username : String) :
    loginUserFilter config username =
      ("(&(" ++ ObjectClass ++ "=" ++ SanitizeAttr config.UserObjectClass ++ ")(" ++
        SanitizeAttr config.UserLoginAttribute ++ "=") ++ escapeFilter username ++
      (")" ++ config.UserLoginFilter ++ ")") ∧
    wellEscaped (escapeFilter username).data = true := by
  refine ⟨?_, wellEscaped_escapeFilter username⟩
  simp only [loginUserFilter, String.append_assoc]

/-! ### Principal-search query shape (claim C5) -/

theorem foldl_append_data (f : String → String) (l : List String) (s : String) :
    (l.foldl (fun acc x => acc ++ f x) s).data =
      s.data ++ (l.map (fun x => (f x).data)).flatten := by
  induction l generalizing s with
  | nil => simp
  | cons a as ih => simp [ih, String.data_append, List.append_assoc]

/-- Spec-worded form of the user principal-search query (§4.6): every
attribute of the pipe-delimited configured list OR'd as a prefix match
`attr=name*`, with `uidNumber` as an exact match, conjoined with the user
object-class clause and the configured filter override. Written with
map-and-join rather than the source's fold, for comparison against
`searchUserQuery`. -/
def specUserQuery (config : LdapConfig) (name : String) : String :=
  "(&(" ++ ObjectClass ++ "=" ++ SanitizeAttr config.UserObjectClass ++ ")" ++
  ("(|" ++
    String.join ((config.UserSearchAttribute.splitOn "|").map (searchUserAttrClause name)) ++
    ")") ++
  config.UserSearchFilter ++ ")"

/-- Spec-worded form of the group principal-search query as the claim states
it: the "same pattern" as users, a prefix match `attr=name*` on the single
configured group search attribute (exact for `gidNumber`). -/
def specGroupQueryClaimed (config : LdapConfig) (name : String) : String :=
  let clause :=
    if config.GroupSearchAttribute == "gidNumber" then
      SanitizeAttr config.GroupSearchAttribute ++ "=" ++ escapeFilter name
    else
      SanitizeAttr config.GroupSearchAttribute ++ "=" ++ escapeFilter name ++ "*"
  "(&(" ++ ObjectClass ++ "=" ++ SanitizeAttr config.GroupObjectClass ++ ")(" ++
    clause ++ ")" ++ config.GroupSearchFilter ++ ")"

/-- Configuration used by the concrete search-query counterexample. -/
def c5Config : LdapConfig :=
  { UserObjectClass := "person", UserLoginAttribute := "uid", UserLoginFilter := "",
    UserSearchBase := "ou=users,dc=x", UserSearchAttribute := "uid|cn",
    UserSearchFilter := "", UserMemberAttribute := "memberOf",
    UserNameAttribute := "cn", UserEnabledAttribute := "", UserDisabledBitMask := 0,
    GroupObjectClass := "groupOfNames", GroupDNAttribute := "entryDN",
    GroupMemberUserAttribute := "memberUid",
    GroupMemberMappingAttribute := "member", GroupSearchBase := "",
    GroupSearchAttribute := "cn", GroupSearchFilter := "", GroupNameAttribute := "cn",
    NestedGroupMembershipEnabled := false, SearchUsingServiceAccount := false,
    Enabled := true, ServiceAccountDistinguishedName := "cn=admin,dc=x",
    ServiceAccountPassword := "secret" }

/-- C5 counterexample: for the group attribute `cn` and name `eng` the query
the source builds is the substring match `(cn=*eng*)`, not the prefix match
`(cn=eng*)` the claim describes. -/
theorem searchGroupQuery_not_prefix_match :
    searchGroupQuery c5Config "eng" ≠ specGroupQueryClaimed c5Config "eng" ∧
    searchGroupQuery c5Config "eng" = "(&(objectClass=groupOfNames)(cn=*eng*))" := by
  constructor
  · decide
  · decide

/-- C5 amended: the user query ORs the pipe-delimited attributes as prefix
matches `attr=name*` (exact for `uidNumber`) exactly as claimed, but the
group query uses a substring match `attr=*name*` on the configured group
search attribute (exact for `gidNumber`), not a prefix match. -/
theorem search_query_shapes (config : LdapConfig) (name : String) :
    searchUserQuery config name = specUserQuery config name ∧
    (config.GroupSearchAttribute ≠ "gidNumber" →
      searchGroupQuery config name =
        "(&(" ++ ObjectClass ++ "=" ++ SanitizeAttr config.GroupObjectClass ++ ")(" ++
          (SanitizeAttr config.GroupSearchAttribute ++ "=*" ++ escapeFilter name ++ "*") ++
          ")" ++ config.GroupSearchFilter ++ ")") ∧
    (config.GroupSearchAttribute = "gidNumber" →
      searchGroupQuery config name =
        "(&(" ++ ObjectClass ++ "=" ++ SanitizeAttr config.GroupObjectClass ++ ")(" ++
          (SanitizeAttr config.GroupSearchAttribute ++ "=" ++ escapeFilter name) ++
          ")" ++ config.GroupSearchFilter ++ ")") := by
  refine ⟨?_, ?_, ?_⟩
  · apply String.ext
    simp only [searchUserQuery, specUserQuery, foldl_append_data, String.data_append,
      String.join_eq, List.map_map]
    simp only [Function.comp_def, List.append_assoc]
  · intro hne
    have hb : (config.GroupSearchAttribute == "gidNumber") = false := by simpa using hne
    simp only [searchGroupQuery, hb, Bool.false_eq_true, if_false]
  · intro heq
    have hb : (config.GroupSearchAttribute == "gidNumber") = true := by simpa using heq
    simp only [searchGroupQuery, hb, if_true]

/-- Witness for the amended search-query theorem at a concrete input. -/
theorem search_query_shapes_witness :
    searchGroupQuery c5Config "eng" =
      "(&(" ++ ObjectClass ++ "=" ++ SanitizeAttr c5Config.GroupObjectClass ++ ")(" ++
        (SanitizeAttr c5Config.GroupSearchAttribute ++ "=*" ++ escapeFilter "eng" ++ "*") ++
        ")" ++ c5Config.GroupSearchFilter ++ ")" :=
  (search_query_shapes c5Config "eng").2.1 (by decide)

/-! ### Shared concrete fixtures for witnesses and counterexamples -/

/-- Provider fixture. -/
def testPr : Provider :=
  { userScope := "ldap_user", groupScope := "ldap_group",
    providerName := "ldap", samlSearch := false }

/-- Empty nested directory fixture. -/
def testNd : NestedDirectory := { groups := [], searchFails := fun _ => false }

/-- Login collaborators fixture: every filter compiles, access always
granted. -/
def testDeps : LoginDeps :=
  { compileFilterOk := fun _ => true, checkAccess := fun _ _ => .ok true }

/-- Credentials fixture. -/
def testCreds : BasicLogin := { username := "alice", password := "pw" }

/-! ### searchLdap error classification (claim C4) -/

/-- C4 amended: with the service-account bind succeeding, a paged-search
failure that is a typed LDAP error with the no-such-object result code
yields the (empty) entry set with no error; a typed LDAP error with any
other code is surfaced as an error; but a failure that is not a typed
LDAP error is silently ignored and the (empty) result set is processed as
a success. -/
theorem searchLdap_error_handling (pr : Provider) (conn : Conn)
    (query scope : String) (config : LdapConfig) (entries : List Entry)
    (errOpt : Option Err)
    (hbind : conn.bind (GetUserExternalID config.ServiceAccountDistinguishedName "")
      config.ServiceAccountPassword = none)
    (hpaging : conn.searchWithPaging (searchLdapRequest config query scope) 1000 =
      (entries, errOpt)) :
    ((∃ m, errOpt = some (.ldap LDAPResultNoSuchObject m)) → entries = [] →
      searchLdap pr conn query scope config = .ok []) ∧
    (∀ code m, errOpt = some (.ldap code m) → code ≠ LDAPResultNoSuchObject →
      searchLdap pr conn query scope config =
        .error (.go ("ldap: error searching for query " ++ query))) ∧
    ((∃ m, errOpt = some (.go m)) → entries = [] →
      searchLdap pr conn query scope config = .ok []) := by
  refine ⟨?_, ?_, ?_⟩
  · rintro ⟨m, rfl⟩ rfl
    simp [searchLdap, hbind, hpaging]
  · rintro code m rfl hcode
    have hc : (code != LDAPResultNoSuchObject) = true := by simpa using hcode
    simp [searchLdap, hbind, hpaging, hc]
  · rintro ⟨m, rfl⟩ rfl
    simp [searchLdap, hbind, hpaging]

/-- Connection whose paged search fails with an untyped (non-LDAP) error. -/
def c4Conn : Conn :=
  { bind := fun _ _ => none
    search := fun _ => .ok []
    searchWithPaging := fun _ _ => ([], some (.go "network error")) }

/-- C4 counterexample: the paged search fails with an error that is not a
typed LDAP error, yet `searchLdap` returns success — the failure is
silently ignored, contradicting "every other search failure is surfaced". -/
theorem searchLdap_swallows_untyped_error :
    c4Conn.searchWithPaging (searchLdapRequest c5Config "(cn=x)" "ldap_group") 1000 =
      ([], some (.go "network error")) ∧
    searchLdap testPr c4Conn "(cn=x)" "ldap_group" c5Config = .ok [] :=
  ⟨rfl, rfl⟩

/-- Connection whose paged search fails with the no-such-object code. -/
def c4NsConn : Conn :=
  { bind := fun _ _ => none
    search := fun _ => .ok []
    searchWithPaging := fun _ _ => ([], some (.ldap 32 "no such object")) }

/-- Witness for the searchLdap error-classification theorem: the
no-such-object failure yields an empty principal list without error. -/
theorem searchLdap_error_handling_witness :
    searchLdap testPr c4NsConn "(cn=x)" "ldap_group" c5Config = .ok [] :=
  (searchLdap_error_handling testPr c4NsConn "(cn=x)" "ldap_group" c5Config []
    (some (.ldap 32 "no such object")) rfl rfl).1 ⟨"no such object", rfl⟩ rfl

/-! ### loginUser error behaviour (claims C6 and C7) -/

/-- C6: when the login user search succeeds with zero entries, and also when
it succeeds with more than one entry, `loginUser` fails with the identical
Unauthorized API error — never ServerError — so the two cases are
indistinguishable to the caller. -/
theorem loginUser_ambiguous_lookup_unauthorized (pr : Provider) (conn : Conn)
    (nd : NestedDirectory) (deps : LoginDeps) (credentials : BasicLogin)
    (config : LdapConfig) (entries : List Entry)
    (hpw : credentials.password ≠ "")
    (hbind : AuthenticateServiceAccountUser config.ServiceAccountPassword
      config.ServiceAccountDistinguishedName "" conn = none)
    (hfilter : config.UserLoginFilter = "" ∨
      deps.compileFilterOk config.UserLoginFilter = true)
    (hsearch : conn.search (NewWholeSubtreeSearchRequest config.UserSearchBase
      (loginUserFilter config credentials.username)
      (config.getUserSearchAttributes ObjectClass)) = .ok entries)
    (hcount : entries = [] ∨ 2 ≤ entries.length) :
    (loginUser pr conn nd deps credentials config).1 =
      .error (.api .unauthorized "Unauthorized") := by
  have hpw' : (credentials.password == "") = false := by simpa using hpw
  have hfil : (config.UserLoginFilter != "" &&
      !(deps.compileFilterOk config.UserLoginFilter)) = false := by
    rcases hfilter with h | h <;> simp [h]
  rcases hcount with rfl | hlen
  · simp [loginUser, hpw', hbind, hfil, hsearch]
  · obtain ⟨a, t, rfl⟩ : ∃ x t, entries = x :: t := by
      cases entries with
      | nil => simp at hlen
      | cons x t => exact ⟨x, t, rfl⟩
    obtain ⟨b, r, rfl⟩ : ∃ y r, t = y :: r := by
      cases t with
      | nil => simp at hlen
      | cons y r => exact ⟨y, r, rfl⟩
    simp [loginUser, hpw', hbind, hfil, hsearch]

/-- Two distinct directory entries. -/
def c6Entry1 : Entry := { dn := "uid=alice,ou=users,dc=x", attributes := [] }

def c6Entry2 : Entry := { dn := "uid=alice,ou=other,dc=x", attributes := [] }

/-- Connection whose user search finds two entries. -/
def c6ConnTwo : Conn :=
  { bind := fun _ _ => none
    search := fun _ => .ok [c6Entry1, c6Entry2]
    searchWithPaging := fun _ _ => ([], none) }

/-- Connection whose user search finds nothing. -/
def c6ConnZero : Conn :=
  { bind := fun _ _ => none
    search := fun _ => .ok []
    searchWithPaging := fun _ _ => ([], none) }

/-- Witness: both the two-entry and the zero-entry lookup produce the same
Unauthorized error. -/
theorem loginUser_ambiguous_lookup_unauthorized_witness :
    (loginUser testPr c6ConnTwo testNd testDeps testCreds c5Config).1 =
      .error (.api .unauthorized "Unauthorized") ∧
    (loginUser testPr c6ConnZero testNd testDeps testCreds c5Config).1 =
      .error (.api .unauthorized "Unauthorized") :=
  ⟨loginUser_ambiguous_lookup_unauthorized testPr c6ConnTwo testNd testDeps testCreds
      c5Config [c6Entry1, c6Entry2] (by decide) rfl (Or.inl rfl) rfl
      (Or.inr (by decide)),
    loginUser_ambiguous_lookup_unauthorized testPr c6ConnZero testNd testDeps testCreds
      c5Config [] (by decide) rfl (Or.inl rfl) rfl (Or.inl rfl)⟩

/-- C7: a configured user login filter that fails LDAP filter syntax
compilation makes `loginUser` return the InvalidOption error, with no
directory search issued. -/
theorem loginUser_invalid_filter_before_search (pr : Provider) (conn : Conn)
    (nd : NestedDirectory) (deps : LoginDeps) (credentials : BasicLogin)
    (config : LdapConfig)
    (hpw : credentials.password ≠ "")
    (hbind : AuthenticateServiceAccountUser config.ServiceAccountPassword
      config.ServiceAccountDistinguishedName "" conn = none)
    (hfne : config.UserLoginFilter ≠ "")
    (hcomp : deps.compileFilterOk config.UserLoginFilter = false) :
    loginUser pr conn nd deps credentials config =
      (.error (.api .invalidOption "invalid userLoginFilter"), []) := by
  have hpw' : (credentials.password == "") = false := by simpa using hpw
  have hfne' : (config.UserLoginFilter != "") = true := by simpa using hfne
  simp [loginUser, hpw', hbind, hfne', hcomp]

/-- Configuration with a malformed login-filter override. -/
def c7Config : LdapConfig := { c5Config with UserLoginFilter := "(((" }

/-- Collaborators for which the malformed filter fails compilation. -/
def c7Deps : LoginDeps :=
  { compileFilterOk := fun _ => false, checkAccess := fun _ _ => .ok true }

/-- Witness: with the malformed override, login fails with InvalidOption and
the issued-search trace is empty. -/
theorem loginUser_invalid_filter_before_search_witness :
    loginUser testPr c6ConnZero testNd c7Deps testCreds c7Config =
      (.error (.api .invalidOption "invalid userLoginFilter"), []) :=
  loginUser_invalid_filter_before_search testPr c6ConnZero testNd c7Deps testCreds
    c7Config (by decide) rfl (by decide) rfl

/-! ### getPrincipal bind-failure principal (claim C10) -/

/-- C10: when the scope is valid, the DN parses, the RDN-attribute gate
passes, and the service-account bind fails with the invalid-credentials
result code while the provider configuration is enabled, `getPrincipal`
returns — with nil error and with an empty issued-search trace — a principal
synthesized from the distinguished name alone: id `scope://DN`, display
name and login name both the DN. -/
theorem getPrincipal_failed_bind_dn_principal (pr : Provider) (conn : Conn)
    (parseDN : String → Option (List (String × String)))
    (distinguishedName scope : String) (config : LdapConfig)
    (rdnAttrs : List (String × String)) (msg : String)
    (hscope : scope = pr.userScope ∨ scope = pr.groupScope)
    (hparse : parseDN distinguishedName = some rdnAttrs)
    (hgate : IsType (rdnAttrs.map (fun p => { name := p.1, values := [p.2] })) scope = true ∨
      permissionCheck (rdnAttrs.map (fun p => { name := p.1, values := [p.2] })) config = true)
    (hbind : conn.bind (GetUserExternalID config.ServiceAccountDistinguishedName "")
      config.ServiceAccountPassword = some (.ldap LDAPResultInvalidCredentials msg))
    (henabled : config.Enabled = true) :
    getPrincipal pr (.ok conn) parseDN distinguishedName scope config =
      (.ok (some (principalFromDN scope distinguishedName (entityTypeOf scope))), []) ∧
    (principalFromDN scope distinguishedName (entityTypeOf scope)).name =
      scope ++ "://" ++ distinguishedName ∧
    (principalFromDN scope distinguishedName (entityTypeOf scope)).displayName =
      distinguishedName ∧
    (principalFromDN scope distinguishedName (entityTypeOf scope)).loginName =
      distinguishedName := by
  refine ⟨?_, rfl, rfl, rfl⟩
  have hss : (scope != pr.userScope && scope != pr.groupScope) = false := by
    rcases hscope with rfl | rfl <;> simp
  have hg : (!(IsType (rdnAttrs.map (fun p => { name := p.1, values := [p.2] })) scope) &&
      !(permissionCheck (rdnAttrs.map (fun p => { name := p.1, values := [p.2] })) config))
      = false := by
    rcases hgate with h | h <;> simp [h]
  simp [getPrincipal, hss, hparse, hg, hbind, henabled, LDAPResultInvalidCredentials]

/-- Connection whose service-account bind fails with invalid credentials. -/
def c10Conn : Conn :=
  { bind := fun _ _ => some (.ldap 49 "invalid credentials")
    search := fun _ => .ok []
    searchWithPaging := fun _ _ => ([], none) }

/-- DN parser fixture returning one RDN pair. -/
def c10ParseDN : String → Option (List (String × String)) :=
  fun _ => some [("uid", "alice")]

/-- Witness: the DN-synthesized principal is returned with no search
issued. -/
theorem getPrincipal_failed_bind_dn_principal_witness :
    getPrincipal testPr (.ok c10Conn) c10ParseDN "uid=alice,ou=users,dc=x" "ldap_user"
      c5Config =
      (.ok (some (principalFromDN "ldap_user" "uid=alice,ou=users,dc=x"
        (entityTypeOf "ldap_user"))), []) :=
  (getPrincipal_failed_bind_dn_principal testPr c10Conn c10ParseDN
    "uid=alice,ou=users,dc=x" "ldap_user" c5Config [("uid", "alice")]
    "invalid credentials" (Or.inl rfl) rfl (Or.inr (by decide)) rfl rfl).1

/-! ### Nested traversal: termination and no duplicates (claim C3) -/

theorem gather_nodup_aux (ctx : GatherCtx) (w : List (Principal × Bool))
    (visited : List String) (acc : List Principal) :
    (acc.map Principal.name).Nodup →
    (∀ n ∈ acc.map Principal.name, n ∈ visited) →
    ∀ nested, gatherWorklist ctx w visited acc = .ok nested →
      (nested.map Principal.name).Nodup := by
  induction w, visited, acc using gatherWorklist.induct ctx with
  | case1 visited acc =>
    intro hacc _ nested h
    simp only [gatherWorklist] at h
    injection h with h
    rw [← h]
    exact hacc
  | case2 g isNested rest visited acc hv ih =>
    intro hacc hsub nested h
    simp only [gatherWorklist, dif_pos hv] at h
    exact ih hacc hsub nested h
  | case3 g isNested rest visited acc hv hfail =>
    intro _ _ nested h
    simp only [gatherWorklist, dif_neg hv, hfail, if_true] at h
    exact absurd h (by simp)
  | case4 g isNested rest visited acc hv hfail ih =>
    intro hacc hsub nested h
    simp only [gatherWorklist, dif_neg hv, hfail, Bool.false_eq_true, if_false] at h
    have hgn : g.name ∉ acc.map Principal.name := fun hmem => hv (hsub _ hmem)
    by_cases hin : isNested = true
    · simp only [hin, dite_eq_ite, if_true] at ih h
      refine ih ?_ ?_ nested h
      · simp only [List.map_append, List.map_cons, List.map_nil]
        rw [List.nodup_append]
        refine ⟨hacc, List.nodup_singleton _, ?_⟩
        intro a ha hab
        simp only [List.mem_singleton] at hab
        subst hab
        exact hgn ha
      · intro n hn
        simp only [List.map_append, List.map_cons, List.map_nil, List.mem_append,
          List.mem_singleton] at hn
        rcases hn with hn | rfl
        · exact List.mem_cons_of_mem _ (hsub n hn)
        · exact List.mem_cons_self _ _
    · simp only [hin, dite_eq_ite, if_false] at ih h
      refine ih hacc ?_ nested h
      intro n hn
      exact List.mem_cons_of_mem _ (hsub n hn)

/-- C3: for every membership graph — cyclic ones included, since the
directory inside `ctx` is arbitrary — the nested traversal seeded with the
groups found by Steps A–D is a total function (`gatherWorklist` is defined
by well-founded recursion on `gatherMeasure`, which is exactly the
termination property), and each group occurs at most once in the nested
result it returns. -/
theorem gather_terminates_no_duplicates (ctx : GatherCtx) (initial : List Principal)
    (nested : List Principal)
    (hrun : gatherWorklist ctx (initial.map (fun g => (g, false))) [] [] = .ok nested) :
    (nested.map Principal.name).Nodup :=
  gather_nodup_aux ctx _ [] [] (by simp) (by simp) nested hrun

/-- Group entry `g1`, member of `g2`. -/
def c3G1Entry : Entry :=
  { dn := "cn=g1,ou=groups,dc=x",
    attributes := [{ name := "objectClass", values := ["groupOfNames"] },
                   { name := "cn", values := ["g1"] },
                   { name := "member", values := ["cn=g2,ou=groups,dc=x"] }] }

/-- Group entry `g2`, member of `g1` — closing the membership cycle. -/
def c3G2Entry : Entry :=
  { dn := "cn=g2,ou=groups,dc=x",
    attributes := [{ name := "objectClass", values := ["groupOfNames"] },
                   { name := "cn", values := ["g2"] },
                   { name := "member", values := ["cn=g1,ou=groups,dc=x"] }] }

/-- Cyclic two-group directory: `g1` and `g2` are each other's parents. -/
def c3Nd : NestedDirectory :=
  { groups := [c3G1Entry, c3G2Entry], searchFails := fun _ => false }

def c3Ctx : GatherCtx := gatherCtxOf testPr c3Nd c5Config

def c3P1 : Principal :=
  { name := "ldap_group://cn=g1,ou=groups,dc=x", displayName := "g1",
    loginName := "g1", principalType := "group" }

def c3P2 : Principal :=
  { name := "ldap_group://cn=g2,ou=groups,dc=x", displayName := "g2",
    loginName := "g2", principalType := "group" }

/-- Witness: on the cyclic two-group graph the traversal returns, finding
the one parent exactly once. -/
theorem gather_terminates_no_duplicates_witness :
    gatherWorklist c3Ctx ([c3P1].map (fun g => (g, false))) [] [] = .ok [c3P2] ∧
    (([c3P2] : List Principal).map Principal.name).Nodup := by
  have hrun : gatherWorklist c3Ctx ([c3P1].map (fun g => (g, false))) [] [] = .ok [c3P2] := by
    have hp1 : parentsOf c3Ctx c3P1 = [c3P2] := by decide
    have hp2 : parentsOf c3Ctx c3P2 = [c3P1] := by decide
    have hf : ∀ s, c3Ctx.nd.searchFails s = false := fun _ => rfl
    have hn1 : c3P1.name = "ldap_group://cn=g1,ou=groups,dc=x" := rfl
    have hn2 : c3P2.name = "ldap_group://cn=g2,ou=groups,dc=x" := rfl
    simp only [List.map_cons, List.map_nil]
    simp [gatherWorklist, hp1, hp2, hf, hn1, hn2]
  exact ⟨hrun, gather_terminates_no_duplicates c3Ctx [c3P1] [c3P2] hrun⟩

/-! ### Batched forward-membership resolution (claim C2) -/

theorem chunk50_length_le (l : List String) : ∀ b ∈ chunk50 l, b.length ≤ 50 := by
  induction l using chunk50.induct with
  | case1 =>
    intro b hb
    rw [chunk50.eq_def] at hb
    simp at hb
  | case2 l hl ih =>
    intro b hb
    rw [chunk50.eq_def, dif_neg hl] at hb
    rcases List.mem_cons.mp hb with rfl | hb
    · exact List.length_take_le 50 l
    · exact ih b hb

theorem chunk50_flatten (l : List String) : (chunk50 l).flatten = l := by
  induction l using chunk50.induct with
  | case1 => rw [chunk50.eq_def]; simp
  | case2 l hl ih =>
    rw [chunk50.eq_def, dif_neg hl]
    simp [ih, List.take_append_drop]

theorem stepBLoop_all_ok (pr : Provider) (conn : Conn) (config : LdapConfig)
    (f : List String → List Principal) (bs : List (List String)) :
    ∀ acc : List Principal,
    (∀ b ∈ bs, searchLdap pr conn (batchQuery config b) pr.groupScope config = .ok (f b)) →
    stepBLoop pr conn config bs acc = (acc ++ (bs.map f).flatten, none) := by
  induction bs with
  | nil => intro acc _; simp [stepBLoop]
  | cons b bs ih =>
    intro acc hsem
    have hb := hsem b (List.mem_cons_self _ _)
    simp only [stepBLoop, hb]
    rw [ih (acc ++ f b) (fun c hc => hsem c (List.mem_cons_of_mem _ hc))]
    simp

/-- Abstract view of the directory rows behind the batched group queries:
the forward-membership DN value a group entry matches, paired with the
principal `searchLdap` produces for that entry. -/
structure GroupRecord where
  dn : String
  principal : Principal
  deriving DecidableEq, Repr

/-- C2: the forward-membership DN list is partitioned by `chunk50` into
consecutive batches of at most 50 DNs whose concatenation is exactly the
original list; and when every batch query returns exactly the directory
groups whose DN lies in the batch, the accumulated Step-B result carries no
error, contains no duplicate principal ids, and has exactly the members of
the unbatched query over the whole DN list. The duplicate-freedom
hypotheses: the DN list itself has no duplicates (an LDAP attribute value
set) and distinct directory rows have distinct principal ids. -/
theorem stepB_batches_and_dedup (pr : Provider) (conn : Conn) (config : LdapConfig)
    (dns : List String) (dir : List GroupRecord)
    (hdns : dns.Nodup)
    (hnm : (dir.map (fun r => r.principal.name)).Nodup)
    (hsem : ∀ b ∈ chunk50 dns,
      searchLdap pr conn (batchQuery config b) pr.groupScope config =
        .ok ((dir.filter (fun r => b.contains r.dn)).map GroupRecord.principal)) :
    (∀ b ∈ chunk50 dns, b.length ≤ 50) ∧
    (chunk50 dns).flatten = dns ∧
    (stepB pr conn config dns).2 = none ∧
    ((stepB pr conn config dns).1.map Principal.name).Nodup ∧
    (∀ p, p ∈ (stepB pr conn config dns).1 ↔
      p ∈ (dir.filter (fun r => dns.contains r.dn)).map GroupRecord.principal) := by
  have hrun := stepBLoop_all_ok pr conn config
    (fun b => (dir.filter (fun r => b.contains r.dn)).map GroupRecord.principal)
    (chunk50 dns) [] hsem
  have hstep : stepB pr conn config dns =
      (((chunk50 dns).map (fun b =>
        (dir.filter (fun r => b.contains r.dn)).map GroupRecord.principal)).flatten, none) := by
    rw [stepB, hrun]; simp
  have hflat := chunk50_flatten dns
  have hinj : ∀ r1 ∈ dir, ∀ r2 ∈ dir, r1.principal.name = r2.principal.name → r1 = r2 :=
    fun r1 h1 r2 h2 he => List.inj_on_of_nodup_map hnm h1 h2 he
  have hchunks : (∀ s ∈ chunk50 dns, s.Nodup) ∧ (chunk50 dns).Pairwise List.Disjoint := by
    rw [← List.nodup_flatten]
    rw [hflat]
    exact hdns
  refine ⟨chunk50_length_le dns, hflat, by rw [hstep], ?_, ?_⟩
  · rw [hstep]
    simp only [List.map_flatten, List.map_map]
    rw [List.nodup_flatten]
    constructor
    · intro s hs
      simp only [List.mem_map] at hs
      obtain ⟨b, hb, rfl⟩ := hs
      have hsb : ((dir.filter (fun r => b.contains r.dn)).map
          (fun r => r.principal.name)).Sublist (dir.map (fun r => r.principal.name)) :=
        (List.filter_sublist dir).map _
      simp only [List.map_map, Function.comp_def]
      exact hnm.sublist hsb
    · rw [List.pairwise_map]
      refine hchunks.2.imp ?_
      intro b1 b2 hdisj n hn1 hn2
      simp only [List.map_map, Function.comp_def, List.mem_map, List.mem_filter] at hn1 hn2
      obtain ⟨r1, ⟨hr1, hc1⟩, hne1⟩ := hn1
      obtain ⟨r2, ⟨hr2, hc2⟩, hne2⟩ := hn2
      have hr12 : r1 = r2 := hinj r1 hr1 r2 hr2 (hne1.trans hne2.symm)
      subst hr12
      exact hdisj (by simpa using hc1) (by simpa using hc2)
  · intro p
    rw [hstep]
    simp only [List.mem_flatten, List.mem_map, List.mem_filter]
    constructor
    · rintro ⟨s, ⟨b, hb, rfl⟩, hp⟩
      simp only [List.mem_map, List.mem_filter] at hp
      obtain ⟨r, ⟨hr, hc⟩, rfl⟩ := hp
      refine ⟨r, ⟨hr, ?_⟩, rfl⟩
      have : r.dn ∈ dns := by
        rw [← hflat]
        exact List.mem_flatten.mpr ⟨b, hb, by simpa using hc⟩
      simpa using this
    · rintro ⟨r, ⟨hr, hc⟩, rfl⟩
      have : r.dn ∈ (chunk50 dns).flatten := by rw [hflat]; simpa using hc
      obtain ⟨b, hb, hrb⟩ := List.mem_flatten.mp this
      refine ⟨(dir.filter (fun x => b.contains x.dn)).map GroupRecord.principal,
        ⟨b, hb, rfl⟩, ?_⟩
      simp only [List.mem_map, List.mem_filter]
      exact ⟨r, ⟨hr, by simpa using hrb⟩, rfl⟩

/-- Fifty-two forward group DNs, covering two batches. -/
def dns52 : List String := ["g0", "g1", "g2", "g3", "g4", "g5", "g6", "g7", "g8", "g9", "g10", "g11", "g12", "g13", "g14", "g15", "g16", "g17", "g18", "g19", "g20", "g21", "g22", "g23", "g24", "g25", "g26", "g27", "g28", "g29", "g30", "g31", "g32", "g33", "g34", "g35", "g36", "g37", "g38", "g39", "g40", "g41", "g42", "g43", "g44", "g45", "g46", "g47", "g48", "g49", "g50", "g51"]

def dnsB1 : List String := ["g0", "g1", "g2", "g3", "g4", "g5", "g6", "g7", "g8", "g9", "g10", "g11", "g12", "g13", "g14", "g15", "g16", "g17", "g18", "g19", "g20", "g21", "g22", "g23", "g24", "g25", "g26", "g27", "g28", "g29", "g30", "g31", "g32", "g33", "g34", "g35", "g36", "g37", "g38", "g39", "g40", "g41", "g42", "g43", "g44", "g45", "g46", "g47", "g48", "g49"]

def dnsB2 : List String := ["g50", "g51"]

/-- Group entry resolved from the first batch. -/
def c2E0 : Entry :=
  { dn := "g0", attributes := [{ name := "objectClass", values := ["groupOfNames"] },
                               { name := "cn", values := ["g0"] }] }

/-- Group entry resolved from the second batch. -/
def c2E51 : Entry :=
  { dn := "g51", attributes := [{ name := "objectClass", values := ["groupOfNames"] },
                                { name := "cn", values := ["g51"] }] }

def c2P0 : Principal :=
  { name := "ldap_group://g0", displayName := "g0", loginName := "g0",
    principalType := "group" }

def c2P51 : Principal :=
  { name := "ldap_group://g51", displayName := "g51", loginName := "g51",
    principalType := "group" }

/-- The two directory records behind the witness connection. -/
def c2Dir : List GroupRecord := [{ dn := "g0", principal := c2P0 },
                                 { dn := "g51", principal := c2P51 }]

/-- Connection answering the two batch queries from `c2Dir`. -/
def c2Conn : Conn :=
  { bind := fun _ _ => none
    search := fun _ => .ok []
    searchWithPaging := fun req _ =>
      (if req.filter == batchQuery c5Config dnsB1 then [c2E0]
       else if req.filter == batchQuery c5Config dnsB2 then [c2E51]
       else [], none) }

theorem c2_chunk : chunk50 dns52 = [dnsB1, dnsB2] := by
  rw [chunk50.eq_def, dif_neg (by decide)]
  rw [show dns52.take 50 = dnsB1 by decide, show dns52.drop 50 = dnsB2 by decide]
  rw [chunk50.eq_def, dif_neg (by decide)]
  rw [show dnsB2.take 50 = dnsB2 by decide, show dnsB2.drop 50 = ([] : List String) by decide]
  rw [chunk50.eq_def, dif_pos rfl]

set_option maxRecDepth 10000 in
/-- Witness: 52 DNs split into a batch of 50 and a batch of 2; the
accumulated result is duplicate-free with no error. -/
theorem stepB_batches_and_dedup_witness :
    ((stepB testPr c2Conn c5Config dns52).1.map Principal.name).Nodup ∧
    (stepB testPr c2Conn c5Config dns52).2 = none := by
  have hsem : ∀ b ∈ chunk50 dns52,
      searchLdap testPr c2Conn (batchQuery c5Config b) testPr.groupScope c5Config =
        .ok ((c2Dir.filter (fun r => b.contains r.dn)).map GroupRecord.principal) := by
    rw [c2_chunk]
    intro b hb
    rcases List.mem_cons.mp hb with rfl | hb
    · rfl
    · rcases List.mem_cons.mp hb with rfl | hb
      · rfl
      · simp at hb
  have h := stepB_batches_and_dedup testPr c2Conn c5Config dns52 c2Dir (by decide)
    (by decide) hsem
  exact ⟨h.2.2.2.1, h.2.2.1⟩

/-! ### Step E guard and fallback scenario (claims C1 and C8) -/

theorem stepB_nil (pr : Provider) (conn : Conn) (config : LdapConfig) :
    stepB pr conn config [] = ([], none) := by
  rw [stepB, chunk50.eq_def, dif_pos rfl]
  rfl

theorem gatherWorklist_no_graph (ctx : GatherCtx) (g : Principal)
    (hg : ctx.nd.groups = []) (hnf : ctx.nd.searchFails g.name = false) :
    gatherWorklist ctx [(g, false)] [] [] = .ok [] := by
  have hp : parentsOf ctx g = [] := by simp [parentsOf, hg]
  simp [gatherWorklist, hnf, hp]

/-- User entry for the concrete resolution scenarios: no forward-membership
attribute, no reverse-membership value. -/
def c1UserEntry : Entry :=
  { dn := "uid=alice,ou=users,dc=x",
    attributes := [{ name := "objectClass", values := ["person"] },
                   { name := "uid", values := ["alice"] },
                   { name := "cn", values := ["Alice"] }] }

/-- Principal the resolver builds for `c1UserEntry`. -/
def c1Alice : Principal :=
  { name := "ldap_user://uid=alice,ou=users,dc=x", displayName := "Alice",
    loginName := "alice", principalType := "user" }

/-- Group entry whose membership-mapping attribute holds the user's DN: the
single group the Step-D fallback query returns. -/
def c1G1Entry : Entry :=
  { dn := "cn=g1,ou=groups,dc=x",
    attributes := [{ name := "objectClass", values := ["groupOfNames"] },
                   { name := "cn", values := ["g1"] },
                   { name := "member", values := ["uid=alice,ou=users,dc=x"] }] }

/-- Nested directory in which `g2` is a parent of `g1` (via `c3G2Entry`,
whose `member` holds `g1`'s DN). -/
def c1Nd : NestedDirectory := { groups := [c3G2Entry], searchFails := fun _ => false }

/-- Connection answering only the fallback reverse query, with `g1`. -/
def c1Conn : Conn :=
  { bind := fun _ _ => none
    search := fun _ => .ok []
    searchWithPaging := fun req _ =>
      (if req.filter == memberMappingQuery c5Config "uid=alice,ou=users,dc=x"
       then [c1G1Entry] else [], none) }

/-- C1 counterexample: nested-group resolution is disabled, Steps A–C find
zero groups, and the Step-D fallback query by the user's DN returns exactly
one group (`g1`) — yet the resolved set contains a second, distinct parent
group (`g2`): upward traversal ran although nested resolution is disabled,
because the source's guard (ldap_client.go:226) also fires whenever the
fallback path was used. -/
theorem nested_disabled_fallback_adds_parent :
    c5Config.NestedGroupMembershipEnabled = false ∧
    searchLdap testPr c1Conn (memberMappingQuery c5Config c1UserEntry.dn)
      testPr.groupScope c5Config = .ok [c3P1] ∧
    getPrincipalsFromSearchResult testPr c1Conn c1Nd c1UserEntry c1UserEntry c5Config =
      (c1Alice, [c3P1, c3P2], none) ∧
    c3P2.name ≠ c3P1.name := by
  refine ⟨rfl, rfl, ?_, by decide⟩
  have hb := stepB_nil testPr c1Conn c5Config
  have hg : gatherWorklist (gatherCtxOf testPr c1Nd c5Config) [(c3P1, false)] [] [] =
      .ok [c3P2] := by
    have hp1 : parentsOf (gatherCtxOf testPr c1Nd c5Config) c3P1 = [c3P2] := by decide
    have hp2 : parentsOf (gatherCtxOf testPr c1Nd c5Config) c3P2 = [] := by decide
    have hf : ∀ s, (gatherCtxOf testPr c1Nd c5Config).nd.searchFails s = false := fun _ => rfl
    have hn1 : c3P1.name = "ldap_group://cn=g1,ou=groups,dc=x" := rfl
    have hn2 : c3P2.name = "ldap_group://cn=g2,ou=groups,dc=x" := rfl
    simp [gatherWorklist, hp1, hp2, hf, hn1, hn2]
  have hperm : permissionCheck c1UserEntry.attributes c5Config = true := rfl
  have hmema : Entry.getAttributeValues c1UserEntry c5Config.UserMemberAttribute = [] := rfl
  have histype : IsType c1UserEntry.attributes c5Config.UserObjectClass = true := rfl
  have ha2p : AttributesToPrincipal c1UserEntry.attributes c1UserEntry.dn testPr.userScope
      testPr.providerName c5Config.UserObjectClass c5Config.UserNameAttribute
      c5Config.UserLoginAttribute c5Config.GroupObjectClass c5Config.GroupNameAttribute =
      .ok c1Alice := rfl
  have hgmu : Entry.getAttributeValues c1UserEntry c5Config.GroupMemberUserAttribute =
      [] := rfl
  have hfind : c1UserEntry.attributes.find?
      (fun a => a.name == c5Config.GroupMemberUserAttribute) = none := rfl
  have hfb : searchLdap testPr c1Conn (memberMappingQuery c5Config c1UserEntry.dn)
      testPr.groupScope c5Config = .ok [c3P1] := rfl
  have hdups : FindNonDuplicateBetweenGroupPrincipals [c3P2] [c3P1] [] = [c3P2] := rfl
  simp [getPrincipalsFromSearchResult, stepE, hperm, hmema, histype, ha2p, hb, hgmu,
    hfind, hfb, hg, hdups]

/-- C1 amended: Step E runs when nested resolution is enabled for the
reverse-attribute (`openldap_group`) scope, or — regardless of the nested
flag — whenever the Step-D fallback was used. In the claim's scenario (zero
groups via A–C, fallback returns one group, nested resolution disabled),
the traversal therefore still runs, and the result is exactly that one
group only when the group has no parents in the directory: here the parent
directory is empty and the per-group search succeeds. -/
theorem nested_fallback_no_parents_exact (pr : Provider) (conn : Conn)
    (nd : NestedDirectory) (entry opEntry : Entry) (config : LdapConfig)
    (user g : Principal)
    (hperm : permissionCheck entry.attributes config = true)
    (hmema : Entry.getAttributeValues entry config.UserMemberAttribute = [])
    (hmemb : Entry.getAttributeValues opEntry config.UserMemberAttribute = [])
    (histype : IsType entry.attributes config.UserObjectClass = true)
    (ha2p : AttributesToPrincipal entry.attributes entry.dn pr.userScope pr.providerName
      config.UserObjectClass config.UserNameAttribute config.UserLoginAttribute
      config.GroupObjectClass config.GroupNameAttribute = .ok user)
    (hgmu : Entry.getAttributeValues entry config.GroupMemberUserAttribute = [])
    (hfind : opEntry.attributes.find?
      (fun a => a.name == config.GroupMemberUserAttribute) = none)
    (hfb : searchLdap pr conn (memberMappingQuery config entry.dn) pr.groupScope config =
      .ok [g])
    (hnd : nd.groups = [])
    (hnofail : nd.searchFails g.name = false)
    (hnested : config.NestedGroupMembershipEnabled = false) :
    getPrincipalsFromSearchResult pr conn nd entry opEntry config = (user, [g], none) := by
  have hb := stepB_nil pr conn config
  have hg : gatherWorklist (gatherCtxOf pr nd config) [(g, false)] [] [] = .ok [] :=
    gatherWorklist_no_graph (gatherCtxOf pr nd config) g hnd hnofail
  simp [getPrincipalsFromSearchResult, stepE, hperm, hmema, hmemb, histype, ha2p, hb,
    hgmu, hfind, hfb, hg, FindNonDuplicateBetweenGroupPrincipals]

/-- Witness for the amended Step-E statement: same scenario as the
counterexample but over an empty parent directory — the fallback group comes
back alone. -/
theorem nested_fallback_no_parents_exact_witness :
    getPrincipalsFromSearchResult testPr c1Conn testNd c1UserEntry c1UserEntry c5Config =
      (c1Alice, [c3P1], none) :=
  nested_fallback_no_parents_exact testPr c1Conn testNd c1UserEntry c1UserEntry c5Config
    c1Alice c3P1 rfl rfl rfl rfl rfl rfl rfl rfl rfl rfl rfl

/-- C8: when the per-group nested-traversal fails, Step E stops and returns
the user principal with the group principals accumulated before Step E and
a nil error — the traversal error is not propagated
(ldap_client.go:249-251). -/
theorem gather_failure_swallowed (pr : Provider) (conn : Conn) (nd : NestedDirectory)
    (entry opEntry : Entry) (config : LdapConfig) (user : Principal)
    (gs : List Principal) (e : Err)
    (hperm : permissionCheck entry.attributes config = true)
    (hmema : Entry.getAttributeValues entry config.UserMemberAttribute = [])
    (hmemb : Entry.getAttributeValues opEntry config.UserMemberAttribute = [])
    (histype : IsType entry.attributes config.UserObjectClass = true)
    (ha2p : AttributesToPrincipal entry.attributes entry.dn pr.userScope pr.providerName
      config.UserObjectClass config.UserNameAttribute config.UserLoginAttribute
      config.GroupObjectClass config.GroupNameAttribute = .ok user)
    (hgmu : Entry.getAttributeValues entry config.GroupMemberUserAttribute = [])
    (hfind : opEntry.attributes.find?
      (fun a => a.name == config.GroupMemberUserAttribute) = none)
    (hfb : searchLdap pr conn (memberMappingQuery config entry.dn) pr.groupScope config =
      .ok gs)
    (hfail : gatherWorklist (gatherCtxOf pr nd config) (gs.map (fun x => (x, false))) [] []
      = .error e) :
    getPrincipalsFromSearchResult pr conn nd entry opEntry config = (user, gs, none) := by
  have hb := stepB_nil pr conn config
  simp [getPrincipalsFromSearchResult, stepE, hperm, hmema, hmemb, histype, ha2p, hb,
    hgmu, hfind, hfb, hfail]

/-- Nested directory whose per-group search always fails. -/
def c8Nd : NestedDirectory := { groups := [], searchFails := fun _ => true }

/-- Witness: the failing traversal's error is dropped and the pre-Step-E
groups come back with a nil error. -/
theorem gather_failure_swallowed_witness :
    getPrincipalsFromSearchResult testPr c1Conn c8Nd c1UserEntry c1UserEntry c5Config =
      (c1Alice, [c3P1], none) := by
  have hfail : gatherWorklist (gatherCtxOf testPr c8Nd c5Config)
      ([c3P1].map (fun x => (x, false))) [] [] =
      .error (.go "nested group search failed") := by
    simp [gatherWorklist, c8Nd, gatherCtxOf]
  exact gather_failure_swallowed testPr c1Conn c8Nd c1UserEntry c1UserEntry c5Config
    c1Alice [c3P1] (.go "nested group search failed") rfl rfl rfl rfl rfl rfl rfl rfl hfail
